import Mathlib

/-!
Verification of the Gandhinagar-Comic-AI repository.

This file shallowly embeds the parts of the repository that the verified
properties are about:

* `config.py` — the fixed safety clause and directory constants;
* `rag_index.py` — `get_vectorstore`, `search_characters`, `delete_document`,
  `get_all_characters`;
* `character_manager.py` — `add_character_from_images`, `get_character_by_id`;
* `story_manager.py` — `delete_story`;
* `prompt_generator.py` — the safety-suffix post-processing of
  `generate_comic_prompts`;
* `comic_renderer.py` — `generate_image_from_prompt`, `add_dialogue_overlay`,
  `render_comic_panels`;
* `image_analyzer.py` — `analyze_image`, `recreate_with_characters`;
* `qa_engine.py` — the image-prompt construction of `answer_question`.

External collaborators (the Gemini text model, the Pollinations image HTTP
endpoint, the Chroma vector store and the HuggingFace embedding model, PIL
font metrics) are modelled as explicit environment records whose fields
return `Except`/`Option` values: a `.error`/`none` models the Python call
raising an exception or failing.  Python dictionaries loaded from JSON are
modelled as records with `Option` fields (a `none` field models an absent
key); `dict.get(k, d)` becomes `Option.getD`.  Filesystem directories are
modelled as association lists in listing order.

Python string primitives that the code uses (`str.lower`, `str.strip`,
`str.split()`, `str.replace`, `" ".join`, `str.endswith`) are given
executable character-list implementations (`pyLower`, `pyStrip`, ...) so
that every definition evaluates by `rfl`/`decide`.
-/

/-! ### Python string primitives -/

/-- Models Python `str.lower()` (ASCII case folding, which is all the
repository's names use). -/
def pyLower (s : String) : String := String.mk (s.data.map Char.toLower)

/-- Models Python `s.replace(" ", "_")` (single-character pattern, hence a
character-wise map). -/
def pyReplaceSpace (s : String) : String :=
  String.mk (s.data.map (fun c => if c = ' ' then '_' else c))

/-- Models Python `str.strip()`: drop leading and trailing whitespace. -/
def pyStrip (s : String) : String :=
  String.mk (((s.data.dropWhile Char.isWhitespace).reverse.dropWhile Char.isWhitespace).reverse)

/-- Auxiliary splitter: Python `str.split()` with no argument splits on runs
of whitespace and never yields empty fields.  `acc` holds the current field,
reversed. -/
def splitWsAux : List Char → List Char → List String
  | [], acc => if acc.isEmpty then [] else [String.mk acc.reverse]
  | c :: cs, acc =>
    if c.isWhitespace then
      if acc.isEmpty then splitWsAux cs [] else String.mk acc.reverse :: splitWsAux cs []
    else splitWsAux cs (c :: acc)

/-- Models Python `str.split()` (no separator argument). -/
def pySplitWs (s : String) : List String := splitWsAux s.data []

/-- Models Python `sep.join(parts)`. -/
def joinSep (sep : String) : List String → String
  | [] => ""
  | [s] => s
  | s :: rest => s ++ sep ++ joinSep sep rest

/-- Models Python `s.endswith(pat)`. -/
def pyEndsWith (s pat : String) : Bool := pat.data.reverse.isPrefixOf s.data.reverse

/-! ### config.py -/

/-- `config.SAFETY_SUFFIX`, the fixed safety clause that the repository's
comments require on every image-generation prompt. -/
def SAFETY_SUFFIX : String :=
  "Comic book art style, clean lines, vibrant colors, slightly anime-influenced webtoon aesthetic, safe for work, no nudity, no sexual content, no gore, no real people, no copyrighted characters or logos, original characters only, all-ages friendly"

/-- `config.POLLINATIONS_API_URL` (its default value). -/
def POLLINATIONS_API_URL : String := "https://image.pollinations.ai/prompt/"

/-- `config.CHARACTERS_DIR`. -/
def CHARACTERS_DIR : String := "gandhinagar_school_project/data/1_characters/students"

/-- The prompt string `s` contains the safety clause verbatim (as a
contiguous substring). -/
def containsSafetySuffix (s : String) : Prop := SAFETY_SUFFIX.data <:+: s.data

instance (s : String) : Decidable (containsSafetySuffix s) :=
  inferInstanceAs (Decidable (SAFETY_SUFFIX.data <:+: s.data))

theorem containsSafetySuffix_append (x : String) : containsSafetySuffix (x ++ SAFETY_SUFFIX) :=
  ⟨x.data, [], by simp⟩

/-! ### Character records (the JSON metadata dictionaries) -/

/-- A character metadata dictionary, as stored in `metadata.json` files and
embedded in retrieval documents.  Each field is `Option`al because the code
reads these records with `dict.get`; `visual_features` is the legacy shape,
a mapping whose values may or may not be strings (a `none` value models a
non-string JSON value, which `image_analyzer`'s flattener skips). -/
structure CharData where
  id : Option String := none
  name : Option String := none
  role : Option String := none
  age : Option String := none
  visual_description : Option String := none
  personality_description : Option String := none
  visual_features : Option (List (String × Option String)) := none
  tags : Option (List String) := none
  image_paths : Option (List String) := none
  generated : Option Bool := none
deriving DecidableEq, Repr

/-! ### rag_index.py — the filesystem scan `get_all_characters` -/

/-- One entry of `os.listdir(config.CHARACTERS_DIR)` together with what the
code finds when it inspects that entry:
* `dir name metadataJson` — a subdirectory; the outer `Option` is whether
  `metadata.json` exists in it, the inner `Option` is whether that file
  parses as JSON;
* `file name parsed` — a flat file; `parsed` is whether it parses as JSON
  (the code only opens it when the name ends in `.json`). -/
inductive DirEntry where
  | dir (name : String) (metadataJson : Option (Option CharData))
  | file (name : String) (parsed : Option CharData)
deriving DecidableEq, Repr

/-- `rag_index.get_all_characters`: scan the characters directory, loading
records from both on-disk layouts — subdirectories holding `metadata.json`
(new structure) and flat `*.json` files (old structure) — skipping entries
that fail to load, in listing order.  The source's `for` loop appending to
`characters` is rendered as structural recursion producing the same list. -/
def get_all_characters : List DirEntry → List CharData
  | [] => []
  | item :: rest =>
    (match item with
     | .dir _ (some (some char_data)) => [char_data]
     | .dir _ (some none) => []          -- json.load failed: warn and skip
     | .dir _ none => []                 -- no metadata.json in the directory
     | .file item_name (some char_data) =>
       if pyEndsWith item_name ".json" then [char_data] else []
     | .file _ none => []                -- json.load failed: warn and skip
    ) ++ get_all_characters rest

/-- The record (if any) that `get_all_characters` extracts from one listing
entry. -/
def entryRecord? : DirEntry → Option CharData
  | .dir _ (some (some char_data)) => some char_data
  | .dir _ (some none) => none
  | .dir _ none => none
  | .file item_name (some char_data) =>
    if pyEndsWith item_name ".json" then some char_data else none
  | .file _ none => none

theorem get_all_characters_eq_filterMap (entries : List DirEntry) :
    get_all_characters entries = entries.filterMap entryRecord? := by
  induction entries with
  | nil => rfl
  | cons e rest ih =>
    cases e with
    | dir n m =>
      cases m with
      | none => simpa [get_all_characters, entryRecord?, List.filterMap_cons] using ih
      | some p =>
        cases p with
        | none => simpa [get_all_characters, entryRecord?, List.filterMap_cons] using ih
        | some d => simpa [get_all_characters, entryRecord?, List.filterMap_cons] using ih
    | file n p =>
      cases p with
      | none => simpa [get_all_characters, entryRecord?, List.filterMap_cons] using ih
      | some d =>
        by_cases h : pyEndsWith n ".json" = true <;>
          simp [get_all_characters, entryRecord?, List.filterMap_cons, h, ih]

/-! ### Claim C2 — `get_all_characters` merges the two layouts -/

/-- A record stored under identifier `x` in both layouts at once. -/
def C2char : CharData := { id := some "x", name := some "X" }

/-- An on-disk state holding the same record both as a directory with a
`metadata.json` (new layout) and as a flat `x.json` file (old layout). -/
def C2state : List DirEntry :=
  [DirEntry.dir "x" (some (some C2char)), DirEntry.file "x.json" (some C2char)]

/-- C2 counterexample: when both supported layouts hold a record for the same
identifier, `get_all_characters` returns both copies — the result is not
duplicate-free and directories do not take precedence (the claimed behaviour
would return a single record). -/
theorem C2_counterexample :
    get_all_characters C2state = [C2char, C2char] ∧
    ¬ (get_all_characters C2state).Nodup ∧
    (get_all_characters C2state).length ≠ 1 := by
  refine ⟨rfl, ?_, by decide⟩
  rw [show get_all_characters C2state = [C2char, C2char] from rfl]
  decide

/-- C2 (amended): `get_all_characters` merges the two on-disk layouts by
concatenation, with no deduplication and no precedence between layouts:
every listing entry that yields a parseable record contributes exactly one
record to the result, so creating N characters across both layouts yields
exactly N records (with both copies returned when both layouts hold a record
for the same identifier), and every stored record appears in the result. -/
theorem C2_listAll_merges_both_layouts (entries : List DirEntry)
    (h : ∀ e ∈ entries, (entryRecord? e).isSome) :
    (get_all_characters entries).length = entries.length ∧
    ∀ e ∈ entries, ∀ c, entryRecord? e = some c → c ∈ get_all_characters entries := by
  constructor
  · rw [get_all_characters_eq_filterMap]
    induction entries with
    | nil => rfl
    | cons e rest ih =>
      have he : (entryRecord? e).isSome := h e (List.mem_cons_self e rest)
      obtain ⟨c, hc⟩ := Option.isSome_iff_exists.mp he
      have := ih (fun x hx => h x (List.mem_cons_of_mem e hx))
      simp [List.filterMap_cons, hc, this]
  · intro e he c hc
    rw [get_all_characters_eq_filterMap]
    exact List.mem_filterMap.mpr ⟨e, he, hc⟩

/-- Witness for C2: a concrete two-layout state with two distinct characters
gives exactly two records, each present in the result. -/
theorem C2_witness :
    (get_all_characters
        [DirEntry.dir "a" (some (some { id := some "a", name := some "A" })),
         DirEntry.file "b.json" (some { id := some "b", name := some "B" })]).length = 2 ∧
    ∀ e ∈ [DirEntry.dir "a" (some (some { id := some "a", name := some "A" })),
           DirEntry.file "b.json" (some { id := some "b", name := some "B" })],
      ∀ c, entryRecord? e = some c →
        c ∈ get_all_characters
              [DirEntry.dir "a" (some (some { id := some "a", name := some "A" })),
               DirEntry.file "b.json" (some { id := some "b", name := some "B" })] :=
  C2_listAll_merges_both_layouts _ (by decide)

/-! ### rag_index.py — the vector-store wrapper -/

/-- A document returned by the similarity-search provider.  Its
`page_content` is modelled by the parsed payload that the callers extract
from it: `fullData` is the character record embedded after the
`"Full Data:"` marker, or `none` when the marker is missing or the JSON
after it fails to parse (`json.loads` raising inside the callers' `try`). -/
structure RagDoc where
  fullData : Option CharData
deriving DecidableEq, Repr

/-- The external similarity-search provider (`HuggingFaceEmbeddings` +
`Chroma`).  `initVectorstore` is the outcome of constructing the embedding
model and the store inside `get_vectorstore` — a `.error` models those
constructors raising (e.g. the embedding model cache missing on first run).
The remaining fields are the provider method calls, each of which can also
raise. -/
structure RagEnv where
  initVectorstore : Except String Unit
  similarity_search : String → Nat → Except String (List RagDoc)
  delete : String → Except String Unit
  add_documents : CharData → Except String Unit

/-- `rag_index.get_vectorstore`: construct the embeddings and the Chroma
store.  There is no exception handling here, so a constructor failure
propagates to every caller. -/
def get_vectorstore (env : RagEnv) : Except String Unit := env.initVectorstore

/-- `rag_index.search_characters`: build the vector store, then run
`similarity_search` inside a `try` whose handler warns and returns `[]`.
Only the search call is guarded; `get_vectorstore` is evaluated before the
`try` block. -/
def search_characters (env : RagEnv) (query : String) (k : Nat) : Except String (List RagDoc) :=
  match get_vectorstore env with
  | .error e => .error e
  | .ok _ =>
    match env.similarity_search query k with
    | .ok results => .ok results
    | .error _ => .ok []

/-- `rag_index.delete_document`: build the vector store, then call
`vectorstore.delete(ids=[doc_id])` inside a `try` whose handler warns and
returns.  The index state is an association list keyed by document id; a
swallowed provider error leaves it unchanged.  As in `search_characters`,
`get_vectorstore` runs before the `try` block. -/
def delete_document (env : RagEnv) (index : List (String × String)) (doc_id : String) :
    Except String (List (String × String)) :=
  match get_vectorstore env with
  | .error e => .error e
  | .ok _ =>
    match env.delete doc_id with
    | .ok _ => .ok (index.filter (fun p => p.1 != doc_id))
    | .error _ => .ok index

/-! ### Claim C5 — `search_characters` degrades to `[]` -/

/-- A provider whose construction fails (uninitialized embedding model). -/
def C5badRagEnv : RagEnv :=
  { initVectorstore := .error "HuggingFaceEmbeddings init failed",
    similarity_search := fun _ _ => .ok [],
    delete := fun _ => .ok (),
    add_documents := fun _ => .ok () }

/-- C5 counterexample: when the provider fails at construction time
(`get_vectorstore` raises), `search_characters` propagates the failure to
its caller instead of returning the empty sequence — the construction
happens before the `try` block that the claim relies on. -/
theorem C5_counterexample :
    search_characters C5badRagEnv "student" 5 = .error "HuggingFaceEmbeddings init failed" := rfl

/-- C5 (amended): once the provider constructs successfully, no failure of
the similarity search itself propagates: `search_characters` always returns
normally, and returns `[]` whenever the search call errors.  A failure while
constructing the provider (`get_vectorstore`), however, is raised to the
caller. -/
theorem C5_search_degrades_after_init (env : RagEnv) (query : String) (k : Nat)
    (hinit : env.initVectorstore = .ok ()) :
    (∃ results, search_characters env query k = .ok results) ∧
    (∀ e, env.similarity_search query k = .error e → search_characters env query k = .ok []) := by
  constructor
  · cases hs : env.similarity_search query k with
    | ok results => exact ⟨results, by simp [search_characters, get_vectorstore, hinit, hs]⟩
    | error e => exact ⟨[], by simp [search_characters, get_vectorstore, hinit, hs]⟩
  · intro e he
    simp [search_characters, get_vectorstore, hinit, he]

/-- Witness for C5: a provider that constructs but whose search call raises
yields `.ok []`. -/
theorem C5_witness :
    search_characters
      { initVectorstore := .ok (),
        similarity_search := fun _ _ => .error "chroma unreachable",
        delete := fun _ => .ok (),
        add_documents := fun _ => .ok () } "student" 5 = .ok [] :=
  (C5_search_degrades_after_init _ "student" 5 rfl).2 "chroma unreachable" rfl

/-! ### story_manager.py — `delete_story` -/

/-- The story subsystem state: the files of `config.STORIES_DIR` (filename →
raw JSON content) and the retrieval index (document id → content). -/
structure StoryState where
  files : List (String × String)
  index : List (String × String)
deriving DecidableEq, Repr

/-- `story_manager.delete_story`: remove `STORIES_DIR/{story_id}.json` when
present (an `os.remove` exception — `removeRaises` — is caught and makes the
function return `False` immediately), warn-and-continue when the file is
absent, then call `rag_index.delete_document(story_id)` and return `True`.
The returned pair is the poststate plus the call's outcome; a `.error`
outcome models an exception propagating out of `delete_story` (which has no
handler around the index deletion). -/
def delete_story (env : RagEnv) (removeRaises : Bool) (st : StoryState) (story_id : String) :
    StoryState × Except String Bool :=
  let filename := story_id ++ ".json"
  if st.files.any (fun p => p.1 == filename) then
    if removeRaises then (st, .ok false)
    else
      let files2 := st.files.filter (fun p => p.1 != filename)
      match delete_document env st.index story_id with
      | .error e => ({ files := files2, index := st.index }, .error e)
      | .ok index2 => ({ files := files2, index := index2 }, .ok true)
  else
    match delete_document env st.index story_id with
    | .error e => (st, .error e)
    | .ok index2 => ({ files := st.files, index := index2 }, .ok true)

/-! ### Claim C6 — deleting a story removes record and index document -/

/-- Same failing provider shape as `C5badRagEnv`, kept separate so the two
claims share no named artifact. -/
def C6badRagEnv : RagEnv :=
  { initVectorstore := .error "embedding model unavailable",
    similarity_search := fun _ _ => .ok [],
    delete := fun _ => .ok (),
    add_documents := fun _ => .ok () }

/-- A one-story state for the C6 counterexample. -/
def C6state : StoryState :=
  { files := [("s1.json", "story record")], index := [("s1", "story text")] }

/-- C6 counterexample: when the index provider fails at construction time,
`delete_document` raises before reaching its swallow-and-warn handler, and
`delete_story` propagates that exception instead of returning `True` — even
though the on-disk file has already been removed.  So it is not the case
that any provider error is swallowed. -/
theorem C6_counterexample :
    delete_story C6badRagEnv false C6state "s1" =
      ({ files := [], index := [("s1", "story text")] },
       .error "embedding model unavailable") := rfl

/-- C6 (amended): for a stored story id, when `os.remove` succeeds and the
index provider constructs, `delete_story` removes the on-disk record and
returns `True`; with a constructed provider, a failing provider `delete`
call is swallowed by `delete_document` (the index is left unchanged but
`delete_story` still returns `True`), and a successful provider `delete`
also removes the index document keyed by the same id. -/
theorem C6_delete_story_removes_both (env : RagEnv) (st : StoryState) (story_id : String)
    (hfile : st.files.any (fun p => p.1 == story_id ++ ".json") = true)
    (hinit : env.initVectorstore = .ok ()) :
    ∃ st2, delete_story env false st story_id = (st2, .ok true) ∧
      (∀ p ∈ st2.files, p.1 ≠ story_id ++ ".json") ∧
      (env.delete story_id = .ok () → ∀ p ∈ st2.index, p.1 ≠ story_id) ∧
      (∀ e, env.delete story_id = .error e → st2.index = st.index) := by
  cases hd : env.delete story_id with
  | ok u =>
    cases u
    refine ⟨{ files := st.files.filter (fun p => p.1 != story_id ++ ".json"),
              index := st.index.filter (fun p => p.1 != story_id) }, ?_, ?_, ?_, ?_⟩
    · simp [delete_story, delete_document, get_vectorstore, hfile, hinit, hd]
    · intro p hp
      have := List.of_mem_filter hp
      simpa using this
    · intro _ p hp
      have := List.of_mem_filter hp
      simpa using this
    · intro e he
      simp at he
  | error e =>
    refine ⟨{ files := st.files.filter (fun p => p.1 != story_id ++ ".json"),
              index := st.index }, ?_, ?_, ?_, ?_⟩
    · simp [delete_story, delete_document, get_vectorstore, hfile, hinit, hd]
    · intro p hp
      have := List.of_mem_filter hp
      simpa using this
    · intro hok
      simp at hok
    · intro _ _
      rfl

/-- Witness for C6: deleting story `"s1"` from a concrete state with a
healthy provider removes both the file and the index document and returns
`True`. -/
theorem C6_witness :
    ∃ st2,
      delete_story
        { initVectorstore := .ok (), similarity_search := fun _ _ => .ok [],
          delete := fun _ => .ok (), add_documents := fun _ => .ok () }
        false
        { files := [("s1.json", "story record")], index := [("s1", "story text")] }
        "s1" = (st2, .ok true) ∧
      (∀ p ∈ st2.files, p.1 ≠ "s1" ++ ".json") ∧
      ((Except.ok () : Except String Unit) = .ok () →
        ∀ p ∈ st2.index, p.1 ≠ "s1") ∧
      (∀ e, (Except.ok () : Except String Unit) = .error e →
        st2.index = [("s1", "story text")]) :=
  C6_delete_story_removes_both _ _ "s1" (by decide) rfl

/-! ### comic_renderer.py — image generation and panel rendering -/

/-- A PIL image value.  `base` is an image as decoded from provider bytes
(tagged so distinct fetches can be distinguished); `rect` and `text` are the
two `ImageDraw` operations `add_dialogue_overlay` applies, recorded with the
geometry the code computes. -/
inductive Img where
  | base (tag : Nat)
  | rect (i : Img) (x0 y0 x1 y1 : Int) (fill outline : String) (width : Nat)
  | text (i : Img) (x y : Int) (content fill align : String)
deriving DecidableEq, Repr

/-- The Pollinations HTTP endpoint.  `fetch url` models
`urllib.parse.quote` + `requests.get(url, timeout=90)` +
`raise_for_status()` + `Image.open`: `none` on a timeout, transport error,
non-2xx status or undecodable body (any exception reaching the `except`
arm), `some img` on success. -/
structure RenderEnv where
  fetch : String → Option Img

/-- The prompt sanitization in `generate_image_from_prompt`:
`" ".join(prompt.split())` collapses all whitespace runs to single
spaces. -/
def cleanPrompt (prompt : String) : String := joinSep " " (pySplitWs prompt)

/-- `comic_renderer.generate_image_from_prompt`: sanitize the prompt, build
the request URL, fetch; every failure is caught and yields `none`. -/
def generate_image_from_prompt (env : RenderEnv) (prompt : String) (panel_num : Nat) : Option Img :=
  let _ := panel_num   -- used only for logging in the source
  env.fetch (POLLINATIONS_API_URL ++ cleanPrompt prompt)

/-- The PIL facilities `add_dialogue_overlay` calls out to: `size` is
`img.size`, `wrap` is `textwrap.fill(dialogue, width=45)`, and `textbbox`
is `draw.textbbox((0, 0), wrapped_text, font=font)` for the loaded font
(the font fallback chain only changes which font the metrics come from). -/
structure DrawEnv where
  size : Img → Int × Int
  wrap : String → Nat → String
  textbbox : String → Int × Int × Int × Int

/-- The test `if not dialogue or not dialogue.strip():` — the dialogue is
empty or whitespace-only. -/
def isBlankDialogue (dialogue : String) : Bool :=
  dialogue == "" || pyStrip dialogue == ""

/-- The drawing body of `add_dialogue_overlay` (everything after the copy):
wrap the text, measure it, compute the box geometry with Python's floor
division `//`, draw the white box with black border, draw the centered
text. -/
def drawOverlayBox (env : DrawEnv) (image : Img) (dialogue : String) : Img :=
  let wh := env.size image
  let width := wh.1
  let height := wh.2
  let wrapped_text := env.wrap dialogue 45
  let bbox := env.textbbox wrapped_text
  let text_w := bbox.2.2.1 - bbox.1
  let text_h := bbox.2.2.2 - bbox.2.1
  let padding : Int := 25
  let box_w := min (width - 40) (text_w + padding * 2)
  let box_h := text_h + padding * 2
  let box_x := Int.fdiv (width - box_w) 2
  let box_y := height - box_h - 30
  let boxed := Img.rect image box_x box_y (box_x + box_w) (box_y + box_h) "white" "black" 4
  let text_x := box_x + Int.fdiv (box_w - text_w) 2
  let text_y := box_y + padding
  Img.text boxed text_x text_y wrapped_text "black" "center"

/-- A heap of PIL image objects: reference → current pixel value.  Used to
state what `add_dialogue_overlay` does to the object its caller passed in
(Python images are mutable references; `ImageDraw.Draw(img)` mutates
`img`). -/
def heapGet (heap : List (Nat × Img)) (r : Nat) : Option Img :=
  (heap.find? (fun p => p.1 == r)).map (fun p => p.2)

/-- The largest reference in use. -/
def maxKey : List (Nat × Img) → Nat
  | [] => 0
  | p :: rest => max p.1 (maxKey rest)

/-- A reference not in use, for `image.copy()`'s fresh object. -/
def freshRef (heap : List (Nat × Img)) : Nat := maxKey heap + 1

/-- `comic_renderer.add_dialogue_overlay` over the image heap: blank
dialogue returns the input object untouched; otherwise `img = image.copy()`
allocates a fresh object and every subsequent `ImageDraw` operation mutates
that copy, which is returned.  `none` is Python's `AttributeError` on a
dangling reference (never reached by the repository's callers). -/
def add_dialogue_overlay (env : DrawEnv) (heap : List (Nat × Img)) (imageRef : Nat)
    (dialogue : String) : Option (List (Nat × Img) × Nat) :=
  match heapGet heap imageRef with
  | none => none
  | some image =>
    if isBlankDialogue dialogue then some (heap, imageRef)
    else
      let newRef := freshRef heap
      some (heap ++ [(newRef, drawOverlayBox env image dialogue)], newRef)

/-- The value-level core of `add_dialogue_overlay`, used where the caller
owns the only reference to the image (`render_comic_panels` overlays the
image it just decoded). -/
def add_dialogue_overlay_pure (env : DrawEnv) (image : Img) (dialogue : String) : Img :=
  if isBlankDialogue dialogue then image else drawOverlayBox env image dialogue

/-- One panel-prompt dictionary, as produced by the model JSON in
`prompt_generator.generate_comic_prompts`.  Fields are `Option`al: the model
output is parsed JSON that the code never validates. -/
structure Panel where
  panel : Option Nat := none
  scene : Option String := none
  characters : Option String := none
  dialogue : Option String := none
  camera_angle : Option String := none
  emotion : Option String := none
  image_prompt : Option String := none
deriving DecidableEq, Repr

/-- The prompt string `render_comic_panels` hands to
`generate_image_from_prompt` for a panel: `prompt_data.get("image_prompt", "")`. -/
def renderedPrompt (prompt_data : Panel) : String := prompt_data.image_prompt.getD ""

/-- `comic_renderer.render_comic_panels`: for each prompt dictionary,
generate the image; on failure print and skip the panel; on success overlay
the dialogue when nonempty, save to `output_dir/panel_{n}.png` and record
the path.  Returns the saved paths plus the saved images (the source's
per-panel `img.save(save_path)` calls). -/
def render_comic_panels (env : RenderEnv) (denv : DrawEnv) (prompts : List Panel)
    (output_dir : String) : List String × List (String × Img) :=
  match prompts with
  | [] => ([], [])
  | prompt_data :: rest =>
    let panel_num := prompt_data.panel.getD 1
    let image_prompt := renderedPrompt prompt_data
    let dialogue := prompt_data.dialogue.getD ""
    let tail := render_comic_panels env denv rest output_dir
    match generate_image_from_prompt env image_prompt panel_num with
    | some img =>
      let img2 := if dialogue != "" then add_dialogue_overlay_pure denv img dialogue else img
      let save_path := output_dir ++ "/panel_" ++ toString panel_num ++ ".png"
      (save_path :: tail.1, (save_path, img2) :: tail.2)
    | none => tail

/-! ### Claim C7 — failed panels are skipped, not fatal -/

/-- C7: an image-synthesis failure makes `generate_image_from_prompt` return
`none` (the function is total: the `except` arm turns every provider
failure into `None`), and in a batch of three panels where the middle one
fails, `render_comic_panels` still renders and returns the two successful
panels' paths, in order. -/
theorem C7_failed_panel_skipped :
    (∀ (env : RenderEnv) (prompt : String) (n : Nat),
      env.fetch (POLLINATIONS_API_URL ++ cleanPrompt prompt) = none →
      generate_image_from_prompt env prompt n = none) ∧
    (∀ (env : RenderEnv) (denv : DrawEnv) (output_dir : String) (p1 p2 p3 : Panel)
      (i1 i3 : Img),
      generate_image_from_prompt env (renderedPrompt p1) (p1.panel.getD 1) = some i1 →
      generate_image_from_prompt env (renderedPrompt p2) (p2.panel.getD 1) = none →
      generate_image_from_prompt env (renderedPrompt p3) (p3.panel.getD 1) = some i3 →
      (render_comic_panels env denv [p1, p2, p3] output_dir).1 =
        [output_dir ++ "/panel_" ++ toString (p1.panel.getD 1) ++ ".png",
         output_dir ++ "/panel_" ++ toString (p3.panel.getD 1) ++ ".png"] ∧
      (render_comic_panels env denv [p1, p2, p3] output_dir).1.length = 2) := by
  constructor
  · intro env prompt n h
    simpa [generate_image_from_prompt] using h
  · intro env denv output_dir p1 p2 p3 i1 i3 h1 h2 h3
    constructor
    · simp [render_comic_panels, h1, h2, h3]
    · simp [render_comic_panels, h1, h2, h3]

/-- A trivial draw environment for concrete renders. -/
def C7drawEnv : DrawEnv :=
  { size := fun _ => (1024, 576), wrap := fun s _ => s, textbbox := fun _ => (0, 0, 100, 20) }

/-- A provider that fails exactly on the request URL of prompt `"B"`. -/
def C7renderEnv : RenderEnv :=
  { fetch := fun url => if url = POLLINATIONS_API_URL ++ "B" then none else some (Img.base 0) }

/-- Witness for C7: a concrete 3-panel batch whose middle panel's fetch
fails yields `none` for that panel and exactly the two other paths. -/
theorem C7_witness :
    generate_image_from_prompt C7renderEnv "B" 2 = none ∧
    (render_comic_panels C7renderEnv C7drawEnv
        [{ panel := some 1, image_prompt := some "A" },
         { panel := some 2, image_prompt := some "B" },
         { panel := some 3, image_prompt := some "C" }] "comic_output").1 =
      ["comic_output" ++ "/panel_" ++ toString 1 ++ ".png",
       "comic_output" ++ "/panel_" ++ toString 3 ++ ".png"] ∧
    (render_comic_panels C7renderEnv C7drawEnv
        [{ panel := some 1, image_prompt := some "A" },
         { panel := some 2, image_prompt := some "B" },
         { panel := some 3, image_prompt := some "C" }] "comic_output").1.length = 2 := by
  refine ⟨C7_failed_panel_skipped.1 C7renderEnv "B" 2 (by decide), ?_⟩
  exact C7_failed_panel_skipped.2 C7renderEnv C7drawEnv "comic_output" _ _ _
    (Img.base 0) (Img.base 0) (by decide) (by decide) (by decide)

/-! ### Claim C10 — `add_dialogue_overlay` never mutates its input -/

theorem key_le_maxKey {heap : List (Nat × Img)} {p : Nat × Img} (h : p ∈ heap) :
    p.1 ≤ maxKey heap := by
  induction heap with
  | nil => cases h
  | cons q rest ih =>
    rcases List.mem_cons.mp h with rfl | h2
    · exact le_max_left _ _
    · exact le_trans (ih h2) (le_max_right _ _)

theorem heapGet_append_right {heap : List (Nat × Img)} {r : Nat} {i : Img}
    (h : heapGet heap r = some i) (l : List (Nat × Img)) :
    heapGet (heap ++ l) r = some i := by
  unfold heapGet at h ⊢
  induction heap with
  | nil => simp [List.find?] at h
  | cons q rest ih =>
    by_cases hq : q.1 == r
    · simp [List.find?, hq] at h ⊢
      exact h
    · simp only [List.cons_append, List.find?, hq] at h ⊢
      exact ih h

theorem heapGet_freshRef_append (heap : List (Nat × Img)) (i : Img) :
    heapGet (heap ++ [(freshRef heap, i)]) (freshRef heap) = some i := by
  unfold heapGet
  induction heap with
  | nil => simp [List.find?]
  | cons q rest ih =>
    have hq : (q.1 == freshRef (q :: rest)) = false := by
      have h1 : q.1 ≤ maxKey (q :: rest) := key_le_maxKey (List.mem_cons_self q rest)
      have h2 : q.1 ≠ freshRef (q :: rest) := by
        intro hcontra
        simp only [freshRef] at hcontra
        omega
      simpa using h2
    simp only [List.cons_append, List.find?, hq]
    have hmono : maxKey rest ≤ maxKey (q :: rest) := le_max_right _ _
    -- the fresh reference of the larger heap is also absent from `rest`
    have : ∀ j : Nat, maxKey rest < j → (List.find? (fun p => p.1 == j) (rest ++ [(j, i)])).map (fun p => p.2) = some i := by
      intro j hj
      clear ih hq hmono
      induction rest with
      | nil => simp [List.find?]
      | cons w ws ihw =>
        have hw : (w.1 == j) = false := by
          have : w.1 ≤ maxKey (w :: ws) := key_le_maxKey (List.mem_cons_self w ws)
          have : w.1 ≠ j := by
            have := lt_of_le_of_lt ‹w.1 ≤ maxKey (w :: ws)› hj
            omega
          simpa using this
        simp only [List.cons_append, List.find?, hw]
        exact ihw (lt_of_le_of_lt (le_max_right w.1 (maxKey ws)) hj)
    exact this (freshRef (q :: rest)) (by simp only [freshRef]; omega)

/-- C10: `add_dialogue_overlay` never mutates its input image.  For any
heap holding the input object, the call succeeds; afterwards the input
reference still holds exactly its original pixel value; blank
(empty-or-whitespace) dialogue returns the input object itself with the
heap untouched; and non-blank dialogue returns a fresh object (a copy)
carrying the drawn dialogue box. -/
theorem C10_overlay_preserves_input (env : DrawEnv) (heap : List (Nat × Img)) (imageRef : Nat)
    (dialogue : String) (img : Img) (h : heapGet heap imageRef = some img) :
    ∃ heap2 ref2, add_dialogue_overlay env heap imageRef dialogue = some (heap2, ref2) ∧
      heapGet heap2 imageRef = some img ∧
      (isBlankDialogue dialogue = true → heap2 = heap ∧ ref2 = imageRef) ∧
      (isBlankDialogue dialogue = false →
        ref2 ≠ imageRef ∧ heapGet heap2 ref2 = some (drawOverlayBox env img dialogue)) := by
  by_cases hb : isBlankDialogue dialogue = true
  · refine ⟨heap, imageRef, ?_, h, fun _ => ⟨rfl, rfl⟩, fun hf => absurd hb (by simp [hf])⟩
    simp [add_dialogue_overlay, h, hb]
  · have hb' : isBlankDialogue dialogue = false := by simpa using hb
    refine ⟨heap ++ [(freshRef heap, drawOverlayBox env img dialogue)], freshRef heap, ?_, ?_, ?_, ?_⟩
    · simp [add_dialogue_overlay, h, hb']
    · exact heapGet_append_right h _
    · intro ht
      exact absurd ht (by simp [hb'])
    · intro _
      constructor
      · intro hcontra
        have hmem : (imageRef, img) ∈ heap := by
          unfold heapGet at h
          cases hfind : heap.find? (fun p => p.1 == imageRef) with
          | none => simp [hfind] at h
          | some p =>
            have hp := List.find?_some hfind
            have hpm := List.mem_of_find?_eq_some hfind
            simp [hfind] at h
            have : p.1 = imageRef := by simpa using hp
            rcases p with ⟨a, b⟩
            simp at this h
            subst this
            subst h
            exact hpm
        have := key_le_maxKey hmem
        simp only [freshRef] at hcontra
        omega
      · exact heapGet_freshRef_append heap (drawOverlayBox env img dialogue)

/-- Witness for C10: a concrete heap and dialogue — the original reference
keeps its pixels, and the blank-dialogue case returns the input unchanged. -/
theorem C10_witness :
    (∃ heap2 ref2,
      add_dialogue_overlay C7drawEnv [(0, Img.base 7)] 0 "Oh no!" = some (heap2, ref2) ∧
      heapGet heap2 0 = some (Img.base 7) ∧
      (isBlankDialogue "Oh no!" = true → heap2 = [(0, Img.base 7)] ∧ ref2 = 0) ∧
      (isBlankDialogue "Oh no!" = false →
        ref2 ≠ 0 ∧ heapGet heap2 ref2 = some (drawOverlayBox C7drawEnv (Img.base 7) "Oh no!"))) ∧
    add_dialogue_overlay C7drawEnv [(0, Img.base 7)] 0 "  " = some ([(0, Img.base 7)], 0) := by
  constructor
  · exact C10_overlay_preserves_input C7drawEnv [(0, Img.base 7)] 0 "Oh no!" (Img.base 7) rfl
  · rfl

/-! ### prompt_generator.py — `generate_comic_prompts` -/

/-- The safety post-processing loop of `generate_comic_prompts`: the safety
suffix is appended to a panel's `image_prompt` only when that key is present
in the dictionary the model returned. -/
def addSafetySuffix (prompt : Panel) : Panel :=
  match prompt.image_prompt with
  | some p => { prompt with image_prompt := some (p ++ ". " ++ SAFETY_SUFFIX) }
  | none => prompt

/-- `prompt_generator.generate_comic_prompts`: ask the model for the panel
JSON (the retriever-context assembly, the Gemini call and `json.loads` are
folded into `modelResponse`; a `.error` models any of them raising, which
the function re-raises wrapped), then append the safety suffix to each
panel that has an `image_prompt` key. -/
def generate_comic_prompts (modelResponse : String → Except String (List Panel))
    (story_text : String) : Except String (List Panel) :=
  match modelResponse story_text with
  | .error e => .error ("Prompt generation failed: " ++ e)
  | .ok prompts => .ok (prompts.map addSafetySuffix)

/-! ### image_analyzer.py / qa_engine.py / character_manager.py prompt builders -/

/-- The image-generation prompt of
`image_analyzer.recreate_with_characters` (step 4).  A falsy
`custom_prompt` (absent or empty) contributes the empty string. -/
def recreateImagePrompt (char_names_str style_description : String)
    (character_descriptions : List String) (custom_prompt : Option String) : String :=
  "Recreate this image style with characters " ++ char_names_str ++ ".\n\nORIGINAL STYLE: "
    ++ style_description ++ "\n\nCHARACTERS TO INCLUDE:\n"
    ++ joinSep "; " character_descriptions ++ "\n\n"
    ++ (match custom_prompt with
        | some c => if c == "" then "" else c
        | none => "")
    ++ "\n\nIndian school setting, school uniforms. " ++ SAFETY_SUFFIX

/-- The multi-character image prompt of `qa_engine.answer_question`. -/
def qaGroupPrompt (names_str : String) (character_descriptions : List String) : String :=
  "Group scene with " ++ names_str ++ " from Gandhinagar School. "
    ++ joinSep "; " character_descriptions
    ++ ". Indian school setting, all wearing school uniforms. " ++ SAFETY_SUFFIX

/-- The single-character image prompt of `qa_engine.answer_question`. -/
def qaPortraitPrompt (description0 : String) : String :=
  "Character portrait: " ++ description0
    ++ ". Indian school student in school uniform. Upper body shot, clear face, friendly expression. "
    ++ SAFETY_SUFFIX

/-- The reference-image prompt of
`character_manager.add_character_from_description`. -/
def characterGenPrompt (name role description age : String) : String :=
  "Character portrait of " ++ name ++ ", " ++ role ++ ". \n" ++ description ++ ". \n"
    ++ (if age == "" then "" else "Age: " ++ age ++ ".")
    ++ "\nFull body or upper body shot, clear view of face and outfit.\n" ++ SAFETY_SUFFIX

/-! ### Claim C1 — every rendered prompt carries the safety clause -/

/-- A panel dictionary the model can return that carries no `image_prompt`
key (the code never validates the parsed JSON). -/
def C1badPanel : Panel := { panel := some 1, scene := some "classroom", dialogue := some "" }

set_option maxRecDepth 4000 in
/-- C1 counterexample: `generate_comic_prompts` leaves a panel without an
`image_prompt` key untouched, and `render_comic_panels` then renders that
panel with the empty prompt — which does not contain the safety clause — so
a prompt reaches the image-synthesis provider without `SAFETY_SUFFIX`. -/
theorem C1_counterexample :
    generate_comic_prompts (fun _ => .ok [C1badPanel]) "story" = .ok [C1badPanel] ∧
    renderedPrompt C1badPanel = "" ∧
    ¬ containsSafetySuffix (renderedPrompt C1badPanel) := by
  refine ⟨rfl, rfl, ?_⟩
  intro hcontra
  have h1 : SAFETY_SUFFIX.data = [] := List.infix_nil.mp hcontra
  have h2 : SAFETY_SUFFIX = "" := String.ext h1
  exact absurd h2 (by decide)

/-- C1 (amended): every panel produced by `generate_comic_prompts` that
does carry an `image_prompt` field has the safety clause verbatim in its
rendered prompt, and every image prompt built by the recreation
orchestrator, the Q&A orchestrator and the character generator contains the
safety clause verbatim; only a model-returned panel lacking the
`image_prompt` key escapes the clause (it is rendered with the empty
prompt). -/
theorem C1_safety_suffix_on_prompts :
    (∀ (out : List Panel) (p : Panel) (q : String),
      p ∈ out.map addSafetySuffix → p.image_prompt = some q →
      containsSafetySuffix (renderedPrompt p)) ∧
    (∀ names style descs custom, containsSafetySuffix (recreateImagePrompt names style descs custom)) ∧
    (∀ names descs, containsSafetySuffix (qaGroupPrompt names descs)) ∧
    (∀ d, containsSafetySuffix (qaPortraitPrompt d)) ∧
    (∀ name role d age, containsSafetySuffix (characterGenPrompt name role d age)) := by
  refine ⟨?_, ?_, ?_, ?_, ?_⟩
  · intro out p q hmem hq
    obtain ⟨p0, _, hp0⟩ := List.mem_map.mp hmem
    subst hp0
    unfold addSafetySuffix at hq ⊢
    cases h0 : p0.image_prompt with
    | none => simp [h0] at hq
    | some orig =>
      simp only [renderedPrompt, addSafetySuffix, h0]
      exact containsSafetySuffix_append (orig ++ ". ")
  · intro names style descs custom
    exact containsSafetySuffix_append _
  · intro names descs
    exact containsSafetySuffix_append _
  · intro d
    exact containsSafetySuffix_append _
  · intro name role d age
    exact containsSafetySuffix_append _

/-- A panel that does carry an `image_prompt` key. -/
def C1goodPanel : Panel := { panel := some 1, image_prompt := some "School classroom, student looking worried" }

/-- Witness for C1: concrete instances of each prompt family contain the
safety clause. -/
theorem C1_witness :
    containsSafetySuffix (renderedPrompt (addSafetySuffix C1goodPanel)) ∧
    containsSafetySuffix (recreateImagePrompt "Kabir" "anime style" ["Kabir (student): tall"] none) ∧
    containsSafetySuffix (qaGroupPrompt "Kabir, Mira" ["Kabir (student): tall"]) ∧
    containsSafetySuffix (qaPortraitPrompt "Kabir (student): tall") ∧
    containsSafetySuffix (characterGenPrompt "Kabir" "student" "tall" "12") :=
  ⟨C1_safety_suffix_on_prompts.1 [C1goodPanel] (addSafetySuffix C1goodPanel)
      ("School classroom, student looking worried" ++ ". " ++ SAFETY_SUFFIX)
      (by simp) rfl,
   C1_safety_suffix_on_prompts.2.1 "Kabir" "anime style" ["Kabir (student): tall"] none,
   C1_safety_suffix_on_prompts.2.2.1 "Kabir, Mira" ["Kabir (student): tall"],
   C1_safety_suffix_on_prompts.2.2.2.1 "Kabir (student): tall",
   C1_safety_suffix_on_prompts.2.2.2.2 "Kabir" "student" "tall" "12"⟩

/-! ### image_analyzer.py — analysis and character resolution -/

/-- The Gemini vision model: `respond image prompt` is
`model.generate_content([prompt, img]).text`; `.error` models the call
raising. -/
structure GeminiEnv where
  respond : Nat → String → Except String String

/-- `image_analyzer.analyze_image`: call the vision model; strip the
response; any exception is caught and rendered as an error string (the
function never raises). -/
def analyze_image (env : GeminiEnv) (image_file : Nat) (prompt : String) : String :=
  match env.respond image_file prompt with
  | .ok text => pyStrip text
  | .error e => "Error analyzing image: " ++ e

/-- The style-analysis prompt of `recreate_with_characters` (step 1). -/
def analysisPrompt : String :=
  "Analyze this image and extract:\n1. Art style (anime, cartoon, realistic, etc.)\n2. Composition (close-up, group shot, full scene, etc.)\n3. Mood/tone (happy, dramatic, action-packed, etc.)\n4. Setting/background details\n5. Pose and arrangement of subjects\n\nProvide a concise summary in 2-3 sentences that could be used to recreate a similar image:"

/-- The per-name body of the resolution loop in `recreate_with_characters`
(step 2), given the list the index search returned: accept `results[0]`'s
embedded record only when its `name` matches the requested name
case-insensitively (`json.loads` or marker failures land in the `except:
pass` arm, modelled by `fullData = none`); otherwise fall back to a linear
scan of the cached `get_all_characters()` list for an exact
case-insensitive name match.  `none` records the name as unresolved
(logged, not fatal). -/
def resolveOneName (results : List RagDoc) (all_characters : List CharData) (name : String) :
    Option CharData :=
  let fromIndex : Option CharData :=
    match results with
    | doc :: _ =>
      match doc.fullData with
      | some char_data =>
        if pyLower (char_data.name.getD "") == pyLower name then some char_data else none
      | none => none
    | [] => none
  match fromIndex with
  | some char_data => some char_data
  | none => all_characters.find? (fun char => pyLower (char.name.getD "") == pyLower name)

/-- The resolution loop of `recreate_with_characters` over the requested
names: each name first queries `rag_index.search_characters(name, k=1)` —
whose exceptions are NOT caught by the loop and therefore abort the whole
recreation (`.error`) — then applies `resolveOneName`. -/
def resolveNames (renv : RagEnv) (all_characters : List CharData) :
    List String → Except String (List CharData)
  | [] => .ok []
  | name :: rest =>
    match search_characters renv name 1 with
    | .error e => .error e
    | .ok results =>
      match resolveNames renv all_characters rest with
      | .error e => .error e
      | .ok tail =>
        .ok ((match resolveOneName results all_characters name with
              | some char_data => [char_data]
              | none => []) ++ tail)

/-- Step 2 of `recreate_with_characters` as a whole: `if character_names:`
is Python truthiness, so both an absent and an empty list fall through to
`get_all_characters()` (the index is not consulted on that path). -/
def resolveCharacterList (renv : RagEnv) (entries : List DirEntry)
    (character_names : Option (List String)) : Except String (List CharData) :=
  match character_names with
  | some (n :: rest) => resolveNames renv (get_all_characters entries) (n :: rest)
  | some [] => .ok (get_all_characters entries)
  | none => .ok (get_all_characters entries)

/-- The visual description of one resolved record (steps 3 of
`recreate_with_characters` and of `qa_engine.answer_question`): prefer the
flat `visual_description`; for the legacy `visual_features` mapping,
comma-join its string-valued entries in mapping order. -/
def visualDesc (char_data : CharData) : String :=
  match char_data.visual_description with
  | some v => v
  | none =>
    match char_data.visual_features with
    | some features => joinSep ", " (features.filterMap (fun kv => kv.2))
    | none => ""

/-- Step 3 of `recreate_with_characters`: one `"Name (role): visual"` line
per resolved record, capped at the first 3 records
(`character_data_list[:3]`). -/
def buildCharacterDescriptions (character_data_list : List CharData) : List String :=
  (character_data_list.take 3).map (fun char_data =>
    (char_data.name.getD "character") ++ " (" ++ (char_data.role.getD "student") ++ "): "
      ++ visualDesc char_data)

/-- What `recreate_with_characters` returns. -/
structure RecreateResult where
  description : String
  image_path : Option String
deriving DecidableEq, Repr

/-- `image_analyzer.recreate_with_characters`: analyze the style, resolve
the requested characters (or take all of them), build the grounded image
prompt capped at 3 characters, generate the image, save it under a fresh
temp name.  The whole body sits in a `try` whose handler returns an
`"Error during recreation: ..."` result, so an index exception surfaces as
that error value. -/
def recreate_with_characters (genv : GeminiEnv) (renv : RagEnv) (ienv : RenderEnv)
    (entries : List DirEntry) (tempDir uuidHex8 : String) (image_file : Nat)
    (character_names : Option (List String)) (custom_prompt : Option String) : RecreateResult :=
  let style_description := analyze_image genv image_file analysisPrompt
  match resolveCharacterList renv entries character_names with
  | .error e => { description := "Error during recreation: " ++ e, image_path := none }
  | .ok character_data_list =>
    if character_data_list.isEmpty then
      { description := "No characters found in database. Please add characters first!",
        image_path := none }
    else
      let character_descriptions := buildCharacterDescriptions character_data_list
      let char_names_str :=
        joinSep ", " ((character_data_list.take 3).map (fun cd => cd.name.getD "character"))
      let image_prompt :=
        recreateImagePrompt char_names_str style_description character_descriptions custom_prompt
      match generate_image_from_prompt ienv image_prompt 0 with
      | some _img =>
        { description := "âœ¨ Recreated the image with your characters: " ++ char_names_str
            ++ "! Based on the original style: " ++ style_description,
          image_path := some (tempDir ++ "/" ++ ("recreated_" ++ uuidHex8 ++ ".png")) }
      | none =>
        { description := "Failed to generate image. Please try again.", image_path := none }

/-! ### qa_engine.py — the on-demand image prompt of `answer_question` -/

/-- The description lines `answer_question` builds from the retrieved
character records: the loop runs over `character_data_list[:3]` and only
appends a line when the visual description is nonempty. -/
def qaCharacterDescriptions (character_data_list : List CharData) : List String :=
  (character_data_list.take 3).filterMap (fun char_data =>
    let vd := visualDesc char_data
    if vd == "" then none
    else some ((char_data.name.getD "character") ++ " (" ++ (char_data.role.getD "student")
      ++ "): " ++ vd))

/-- The character names `answer_question` collects, from the same
`character_data_list[:3]` loop (appended unconditionally). -/
def qaCharacterNames (character_data_list : List CharData) : List String :=
  (character_data_list.take 3).map (fun char_data => char_data.name.getD "character")

/-- The image prompt `answer_question` builds when the user asked for an
image: `none` when no description line survived (`if
character_descriptions:`); a group scene for several names, a portrait for
one. -/
def qaImagePrompt (character_data_list : List CharData) : Option String :=
  let character_descriptions := qaCharacterDescriptions character_data_list
  let character_names := qaCharacterNames character_data_list
  if character_descriptions.isEmpty then none
  else if character_names.length > 1 then
    some (qaGroupPrompt (joinSep ", " character_names) character_descriptions)
  else
    some (qaPortraitPrompt (character_descriptions.headD ""))

/-! ### Claim C4 — at most 3 characters ground any image prompt -/

/-- C4: however many names were requested and whatever the store holds,
both orchestrators truncate the resolved character list to 3 before
assembling the visual-grounding description: the recreation orchestrator's
description lines and name list, and the Q&A orchestrator's description
lines and name list, all have length at most 3. -/
theorem C4_resolution_capped_at_three (character_data_list : List CharData) :
    (buildCharacterDescriptions character_data_list).length ≤ 3 ∧
    ((character_data_list.take 3).map (fun cd => cd.name.getD "character")).length ≤ 3 ∧
    (qaCharacterDescriptions character_data_list).length ≤ 3 ∧
    (qaCharacterNames character_data_list).length ≤ 3 := by
  refine ⟨?_, ?_, ?_, ?_⟩
  · simp only [buildCharacterDescriptions, List.length_map, List.length_take]
    exact min_le_left _ _
  · simp only [List.length_map, List.length_take]
    exact min_le_left _ _
  · calc (qaCharacterDescriptions character_data_list).length
        ≤ (character_data_list.take 3).length := List.length_filterMap_le _ _
      _ ≤ 3 := by simp only [List.length_take]; exact min_le_left _ _
  · simp only [qaCharacterNames, List.length_map, List.length_take]
    exact min_le_left _ _

/-! ### Claim C3 — exact-name guard and filesystem fallback -/

/-- C3 (amended): for a requested name with an exact case-insensitive match
in the character store, whenever the index search call completes without
raising — returning any result list whatsoever — the resolution loop
resolves the name to a record whose name matches it case-insensitively:
the index result is accepted only when its embedded record's name matches,
and otherwise the linear filesystem scan finds the stored match.  When the
index's best match is a different character (its embedded name does not
match), the resolved record is exactly the first exact case-insensitive
match of the store scan. -/
theorem C3_exact_name_guard (renv : RagEnv) (all_characters : List CharData)
    (name : String) (results : List RagDoc)
    (hsearch : search_characters renv name 1 = .ok results)
    (hstore : ∃ c ∈ all_characters, pyLower (c.name.getD "") = pyLower name) :
    (∃ char_data, resolveNames renv all_characters [name] = .ok [char_data] ∧
      pyLower (char_data.name.getD "") = pyLower name) ∧
    (∀ doc tl, results = doc :: tl →
      ∀ cd, doc.fullData = some cd → pyLower (cd.name.getD "") ≠ pyLower name →
      resolveNames renv all_characters [name] =
        .ok ((all_characters.find?
              (fun char => pyLower (char.name.getD "") == pyLower name)).elim []
              (fun c => [c]))) := by
  have hfind : (all_characters.find?
      (fun char => pyLower (char.name.getD "") == pyLower name)).isSome := by
    apply List.find?_isSome.mpr
    obtain ⟨c, hc, hcn⟩ := hstore
    exact ⟨c, hc, by simpa using hcn⟩
  obtain ⟨cfb, hcfb⟩ := Option.isSome_iff_exists.mp hfind
  have hcfbn : pyLower (cfb.name.getD "") = pyLower name := by
    have := List.find?_some hcfb
    simpa using this
  constructor
  · cases hres : results with
    | nil =>
      refine ⟨cfb, ?_, hcfbn⟩
      simp [resolveNames, hsearch, hres, resolveOneName, hcfb]
    | cons doc tl =>
      cases hfd : doc.fullData with
      | none =>
        refine ⟨cfb, ?_, hcfbn⟩
        simp [resolveNames, hsearch, hres, resolveOneName, hfd, hcfb]
      | some cd =>
        by_cases hguard : pyLower (cd.name.getD "") = pyLower name
        · refine ⟨cd, ?_, hguard⟩
          simp [resolveNames, hsearch, hres, resolveOneName, hfd, hguard]
        · refine ⟨cfb, ?_, hcfbn⟩
          have hguard' : (pyLower (cd.name.getD "") == pyLower name) = false := by
            simpa using hguard
          simp [resolveNames, hsearch, hres, resolveOneName, hfd, hguard', hcfb]
  · intro doc tl hres cd hfd hguard
    have hguard' : (pyLower (cd.name.getD "") == pyLower name) = false := by
      simpa using hguard
    simp [resolveNames, hsearch, hres, resolveOneName, hfd, hguard', hcfb]

/-- The stored character used in the C3 scenario. -/
def C3kabir : CharData :=
  { id := some "kabir_01", name := some "Kabir", role := some "student",
    visual_description := some "tall boy with glasses" }

/-- A different character the index returns as its near-match best hit. -/
def C3rohan : CharData :=
  { id := some "rohan_01", name := some "Rohan", role := some "student",
    visual_description := some "short boy" }

/-- Witness for C3: the index's best match embeds `Rohan`, yet requesting
`"kabir"` (case-insensitive) resolves to the stored `Kabir` record via the
fallback scan. -/
theorem C3_witness :
    (∃ char_data,
      resolveNames
        { initVectorstore := .ok (),
          similarity_search := fun _ _ => .ok [{ fullData := some C3rohan }],
          delete := fun _ => .ok (), add_documents := fun _ => .ok () }
        [C3kabir] ["kabir"] = .ok [char_data] ∧
      pyLower (char_data.name.getD "") = pyLower "kabir") ∧
    (∀ doc tl, [({ fullData := some C3rohan } : RagDoc)] = doc :: tl →
      ∀ cd, doc.fullData = some cd → pyLower (cd.name.getD "") ≠ pyLower "kabir" →
      resolveNames
        { initVectorstore := .ok (),
          similarity_search := fun _ _ => .ok [{ fullData := some C3rohan }],
          delete := fun _ => .ok (), add_documents := fun _ => .ok () }
        [C3kabir] ["kabir"] =
        .ok (([C3kabir].find?
              (fun char => pyLower (char.name.getD "") == pyLower "kabir")).elim []
              (fun c => [c]))) :=
  C3_exact_name_guard _ [C3kabir] "kabir" [{ fullData := some C3rohan }] rfl
    ⟨C3kabir, by simp, by decide⟩

/-- The failing retrieval provider of the C3 counterexample. -/
def C3badRagEnv : RagEnv :=
  { initVectorstore := .error "embedding model missing",
    similarity_search := fun _ _ => .ok [],
    delete := fun _ => .ok (),
    add_documents := fun _ => .ok () }

/-- The one-character store of the C3 counterexample. -/
def C3entries : List DirEntry := [DirEntry.dir "kabir_01" (some (some C3kabir))]

/-- A healthy vision model for concrete recreation runs. -/
def C3gemini : GeminiEnv := { respond := fun _ _ => .ok "anime style, close-up shot" }

/-- A healthy image endpoint for concrete recreation runs. -/
def C3render : RenderEnv := { fetch := fun _ => some (Img.base 1) }

/-- C3 counterexample: the store holds a record whose name matches the
request exactly, yet `recreate_with_characters` does not resolve it — the
index search raises while constructing the provider, the resolution loop
does not catch it, and the whole recreation aborts with an error result
instead of falling back to the store scan. -/
theorem C3_counterexample :
    pyLower (C3kabir.name.getD "") = pyLower "Kabir" ∧
    resolveNames C3badRagEnv [C3kabir] ["Kabir"] = .error "embedding model missing" ∧
    recreate_with_characters C3gemini C3badRagEnv C3render C3entries "/tmp" "ab12cd34" 0
        (some ["Kabir"]) none =
      { description := "Error during recreation: embedding model missing",
        image_path := none } := by
  exact ⟨by decide, rfl, rfl⟩

/-! ### Claim C9 — absent `names` takes the full store, never an error -/

/-- C9: for every store state, when the requested-names argument is absent,
character resolution returns exactly the records of `get_all_characters`
without consulting the retrieval index — the recreation result is identical
for any two retrieval providers — and when, in particular, the store is
empty, the orchestrator returns the user-facing "no characters" message
with no image, not an error. -/
theorem C9_absent_names_uses_listAll (genv : GeminiEnv) (renv renv2 : RagEnv)
    (ienv : RenderEnv) (entries : List DirEntry) (tempDir uuidHex8 : String)
    (image_file : Nat) (custom_prompt : Option String) :
    resolveCharacterList renv entries none = .ok (get_all_characters entries) ∧
    recreate_with_characters genv renv ienv entries tempDir uuidHex8 image_file none
        custom_prompt =
      recreate_with_characters genv renv2 ienv entries tempDir uuidHex8 image_file none
        custom_prompt ∧
    (get_all_characters entries = [] →
      recreate_with_characters genv renv ienv entries tempDir uuidHex8 image_file none
          custom_prompt =
        { description := "No characters found in database. Please add characters first!",
          image_path := none }) := by
  refine ⟨rfl, rfl, ?_⟩
  intro hempty
  simp [recreate_with_characters, resolveCharacterList, hempty]

/-- Witness for C9: on a concrete nonempty store, absent names resolve to
exactly the `get_all_characters` records and the recreation result is the
same under a failing and under a healthy provider; and on the concrete
empty store the "no characters" message comes back. -/
theorem C9_witness :
    (resolveCharacterList C3badRagEnv C3entries none = .ok (get_all_characters C3entries) ∧
     recreate_with_characters C3gemini C3badRagEnv C3render C3entries "/tmp" "ab12cd34" 0
         none none =
       recreate_with_characters C3gemini
         { initVectorstore := .ok (), similarity_search := fun _ _ => .ok [],
           delete := fun _ => .ok (), add_documents := fun _ => .ok () }
         C3render C3entries "/tmp" "ab12cd34" 0 none none) ∧
    recreate_with_characters C3gemini C3badRagEnv C3render [] "/tmp" "ab12cd34" 0 none none =
      { description := "No characters found in database. Please add characters first!",
        image_path := none } :=
  ⟨⟨(C9_absent_names_uses_listAll C3gemini C3badRagEnv
        { initVectorstore := .ok (), similarity_search := fun _ _ => .ok [],
          delete := fun _ => .ok (), add_documents := fun _ => .ok () }
        C3render C3entries "/tmp" "ab12cd34" 0 none).1,
    (C9_absent_names_uses_listAll C3gemini C3badRagEnv
        { initVectorstore := .ok (), similarity_search := fun _ _ => .ok [],
          delete := fun _ => .ok (), add_documents := fun _ => .ok () }
        C3render C3entries "/tmp" "ab12cd34" 0 none).2.1⟩,
   (C9_absent_names_uses_listAll C3gemini C3badRagEnv C3badRagEnv C3render [] "/tmp"
      "ab12cd34" 0 none).2.2 rfl⟩

/-! ### character_manager.py — creation and lookup -/

/-- Whether a listing entry is a subdirectory with the given name. -/
def isDirNamed (e : DirEntry) (char_id : String) : Bool :=
  match e with
  | .dir n _ => n == char_id
  | .file _ _ => false

/-- Writing `metadata.json` inside `CHARACTERS_DIR/char_id` (after
`os.makedirs(..., exist_ok=True)`): overwrite the directory's metadata when
the directory already exists, otherwise create the directory. -/
def writeMetadata : List DirEntry → String → CharData → List DirEntry
  | [], char_id, char_data => [.dir char_id (some (some char_data))]
  | e :: rest, char_id, char_data =>
    if isDirNamed e char_id then DirEntry.dir char_id (some (some char_data)) :: rest
    else e :: writeMetadata rest char_id char_data

/-- `character_manager.get_character_by_id`: read
`CHARACTERS_DIR/{char_id}/metadata.json`; return the parsed record, or
`None` when the path does not exist.  There is no handler around
`json.load`, so an unparseable file raises (`.error`). -/
def get_character_by_id (entries : List DirEntry) (char_id : String) :
    Except String (Option CharData) :=
  match entries.find? (fun e => isDirNamed e char_id) with
  | some (DirEntry.dir _ (some (some char_data))) => .ok (some char_data)
  | some (DirEntry.dir _ (some none)) => .error "json.load failed"
  | _ => .ok none

/-- `rag_index.add_character_to_index`: build the vector store (no handler:
a constructor failure raises to the caller) and upsert the denormalized
character document (the `page_content` serialization is folded into the
provider call). -/
def add_character_to_index (renv : RagEnv) (char_data : CharData) : Except String Unit :=
  match get_vectorstore renv with
  | .error e => .error e
  | .ok _ => renv.add_documents char_data

/-- The id slug of `add_character_from_images`:
`name.lower().replace(" ", "_") + "_" + str(uuid.uuid4())[:8]`. -/
def makeCharId (name uuid8 : String) : String :=
  pyReplaceSpace (pyLower name) ++ "_" ++ uuid8

/-- `character_manager.add_character_from_images`: allocate the id, create
the character directory, save the uploaded reference images as
`reference_{i+1}.png`, write `metadata.json` with the metadata dictionary
(note `tags or ["student", "school"]`: both an absent and an empty tags
list fall back to the default), then index the record.  The filesystem is
mutated before the index call, so the returned poststate reflects the write
even when indexing raises (`.error` in the second component). -/
def add_character_from_images (renv : RagEnv) (entries : List DirEntry)
    (uuid8 name role description : String) (image_files : List Nat)
    (age personality : String) (tags : Option (List String)) :
    List DirEntry × Except String CharData :=
  let char_id := makeCharId name uuid8
  let char_dir := CHARACTERS_DIR ++ "/" ++ char_id
  let image_paths :=
    (List.range image_files.length).map
      (fun i => char_dir ++ "/reference_" ++ toString (i + 1) ++ ".png")
  let char_data : CharData :=
    { id := some char_id, name := some name, role := some role, age := some age,
      visual_description := some description, personality_description := some personality,
      tags := some (match tags with
        | none => ["student", "school"]
        | some l => if l.isEmpty then ["student", "school"] else l),
      image_paths := some image_paths }
  let entries2 := writeMetadata entries char_id char_data
  match add_character_to_index renv char_data with
  | .error e => (entries2, .error e)
  | .ok _ => (entries2, .ok char_data)

theorem get_character_by_id_writeMetadata (entries : List DirEntry) (char_id : String)
    (char_data : CharData) :
    get_character_by_id (writeMetadata entries char_id char_data) char_id =
      .ok (some char_data) := by
  induction entries with
  | nil =>
    unfold writeMetadata get_character_by_id
    rw [List.find?_cons_of_pos _ (by simp [isDirNamed])]
  | cons e rest ih =>
    by_cases he : isDirNamed e char_id = true
    · rw [writeMetadata, if_pos he]
      unfold get_character_by_id
      rw [List.find?_cons_of_pos _ (by simp [isDirNamed])]
    · rw [writeMetadata, if_neg he]
      unfold get_character_by_id at ih ⊢
      rw [List.find?_cons_of_neg _ (by simpa using he)]
      exact ih

/-! ### Claim C8 — create/get round-trip -/

/-- C8 (amended): a character created by `add_character_from_images` (with
a working index provider, which the creation calls without a handler) and
fetched back by `get_character_by_id` with the returned id yields a record
equal to the creation input on name, role, age, description and
personality, and on tags whenever a non-empty tags list was supplied; a
falsy tags argument — absent OR the empty list — is replaced by the default
`["student", "school"]`. -/
theorem C8_create_get_round_trip (renv : RagEnv) (entries : List DirEntry)
    (uuid8 name role description : String) (image_files : List Nat)
    (age personality : String) (tags : Option (List String))
    (hinit : renv.initVectorstore = .ok ())
    (hadd : ∀ c, renv.add_documents c = .ok ()) :
    ∃ char_data,
      (add_character_from_images renv entries uuid8 name role description image_files
          age personality tags).2 = .ok char_data ∧
      get_character_by_id
          (add_character_from_images renv entries uuid8 name role description image_files
            age personality tags).1 (makeCharId name uuid8) = .ok (some char_data) ∧
      char_data.id = some (makeCharId name uuid8) ∧
      char_data.name = some name ∧ char_data.role = some role ∧ char_data.age = some age ∧
      char_data.visual_description = some description ∧
      char_data.personality_description = some personality ∧
      (∀ l, tags = some l → l ≠ [] → char_data.tags = some l) := by
  refine ⟨{ id := some (makeCharId name uuid8), name := some name, role := some role,
            age := some age, visual_description := some description,
            personality_description := some personality,
            tags := some (match tags with
              | none => ["student", "school"]
              | some l => if l.isEmpty then ["student", "school"] else l),
            image_paths := some ((List.range image_files.length).map
              (fun i => CHARACTERS_DIR ++ "/" ++ makeCharId name uuid8 ++ "/reference_"
                ++ toString (i + 1) ++ ".png")) },
    ?_, ?_, rfl, rfl, rfl, rfl, rfl, rfl, ?_⟩
  · simp [add_character_from_images, add_character_to_index, get_vectorstore, hinit, hadd]
  · have h1 : (add_character_from_images renv entries uuid8 name role description image_files
        age personality tags).1 = writeMetadata entries (makeCharId name uuid8)
          { id := some (makeCharId name uuid8), name := some name, role := some role,
            age := some age, visual_description := some description,
            personality_description := some personality,
            tags := some (match tags with
              | none => ["student", "school"]
              | some l => if l.isEmpty then ["student", "school"] else l),
            image_paths := some ((List.range image_files.length).map
              (fun i => CHARACTERS_DIR ++ "/" ++ makeCharId name uuid8 ++ "/reference_"
                ++ toString (i + 1) ++ ".png")) } := by
      simp [add_character_from_images, add_character_to_index, get_vectorstore, hinit, hadd]
    rw [h1]
    exact get_character_by_id_writeMetadata _ _ _
  · intro l hl hne
    subst hl
    cases l with
    | nil => exact absurd rfl hne
    | cons a as => rfl

/-- The healthy index provider used in the concrete C8 runs. -/
def C8ragEnv : RagEnv :=
  { initVectorstore := .ok (), similarity_search := fun _ _ => .ok [],
    delete := fun _ => .ok (), add_documents := fun _ => .ok () }

/-- C8 counterexample: supplying the empty tags list — a perfectly valid
`tags` argument — does not round-trip: Python's falsy `tags or ["student",
"school"]` replaces it by the default, so the fetched record's `tags`
differs from the supplied value. -/
theorem C8_counterexample :
    get_character_by_id
        (add_character_from_images C8ragEnv [] "ab12cd34" "Kabir" "student" "tall boy"
          [0] "" "" (some [])).1 (makeCharId "Kabir" "ab12cd34") =
      .ok (some { id := some "kabir_ab12cd34", name := some "Kabir", role := some "student",
                  age := some "", visual_description := some "tall boy",
                  personality_description := some "",
                  tags := some ["student", "school"],
                  image_paths := some [CHARACTERS_DIR ++ "/kabir_ab12cd34/reference_1.png"] }) ∧
    some (["student", "school"] : List String) ≠ some ([] : List String) := by
  refine ⟨?_, by decide⟩
  rfl

/-- Witness for C8: with a supplied non-empty tags list, create-then-get
returns a record matching every supplied field. -/
theorem C8_witness :
    ∃ char_data,
      (add_character_from_images C8ragEnv [] "ab12cd34" "Mira Shah" "teacher" "green saree"
          [0, 1] "35" "kind" (some ["teacher"])).2 = .ok char_data ∧
      get_character_by_id
          (add_character_from_images C8ragEnv [] "ab12cd34" "Mira Shah" "teacher" "green saree"
            [0, 1] "35" "kind" (some ["teacher"])).1 (makeCharId "Mira Shah" "ab12cd34") =
        .ok (some char_data) ∧
      char_data.id = some (makeCharId "Mira Shah" "ab12cd34") ∧
      char_data.name = some "Mira Shah" ∧ char_data.role = some "teacher" ∧
      char_data.age = some "35" ∧
      char_data.visual_description = some "green saree" ∧
      char_data.personality_description = some "kind" ∧
      (∀ l, some ["teacher"] = some l → l ≠ [] → char_data.tags = some l) :=
  C8_create_get_round_trip C8ragEnv [] "ab12cd34" "Mira Shah" "teacher" "green saree"
    [0, 1] "35" "kind" (some ["teacher"]) rfl (fun _ => rfl)
